import Mathlib

/-! The assertion helpers of `internal/assert/assert.go`.

The package has three checks, `Nil`, `Equal` and `Panic`, that report through
the interface `T` (`Helper`, `Error`).  They are embedded below as functions on
an explicit reporter state.  The checks call into Go's `reflect`, `fmt` and
`regexp`; what they use of those packages is given first, over a fragment of
Go's values: scalars, pointers, slices, maps with scalar keys, channels,
functions and unsafe pointers.
-/

namespace Assert

/-! ## Go values and their runtime types -/

/-- Go's `reflect.Kind`, in the order of the `reflect` package. -/
inductive Kind where
  | Invalid | Bool
  | Int | Int8 | Int16 | Int32 | Int64
  | Uint | Uint8 | Uint16 | Uint32 | Uint64 | Uintptr
  | Float32 | Float64 | Complex64 | Complex128
  | Array | Chan | Func | Interface | Map | Ptr | Slice | String | Struct
  | UnsafePointer
  deriving DecidableEq, Repr

/-- The integer types of Go. -/
inductive IntKind where
  | int | int8 | int16 | int32 | int64
  | uint | uint8 | uint16 | uint32 | uint64 | uintptr
  deriving DecidableEq, Repr

/-- The floating-point types of Go. -/
inductive FloatKind where
  | float32 | float64
  deriving DecidableEq, Repr

/-- Runtime types of the fragment.  A function type is given by the text of its
signature, as `%T` prints it (for example `func()`). -/
inductive GoType where
  | bool
  | int (k : IntKind)
  | float (k : FloatKind)
  | string
  | unsafePointer
  | pointer (elem : GoType)
  | slice (elem : GoType)
  | map (key elem : GoType)
  | chan (elem : GoType)
  | func (signature : String)
  deriving DecidableEq, Repr

/-- A floating-point number: not-a-number, an infinity, or a finite number given
by its value (the sign of a zero is not kept). -/
inductive GoFloat where
  | nan
  | inf (negative : Bool)
  | num (q : ℚ)
  deriving DecidableEq

/-- Values of the basic types. -/
inductive Scalar where
  | bool (b : Bool)
  | int (k : IntKind) (n : Int)
  | float (k : FloatKind) (x : GoFloat)
  | str (s : String)
  deriving DecidableEq

/-- What an `interface{}` argument can hold.  `nil` is the interface that holds
nothing (untyped nil).  A channel, function or unsafe pointer is its address,
`none` for nil.  A non-nil pointer, slice or map carries the address of its
storage and what is stored there; its nil value is a constructor of its own. -/
inductive GoValue where
  | nil
  | scalar (s : Scalar)
  | unsafePointer (ref : Option Nat)
  | chan (elem : GoType) (ref : Option Nat)
  | func (signature : String) (ref : Option Nat)
  | nilPointer (elem : GoType)
  | pointer (elem : GoType) (addr : Nat) (target : GoValue)
  | nilSlice (elem : GoType)
  | slice (elem : GoType) (addr : Nat) (elems : List GoValue)
  | nilMap (key elem : GoType)
  | map (key elem : GoType) (addr : Nat) (entries : List (Scalar × GoValue))

/-- Kind of a runtime type (`reflect.Type.Kind`). -/
def GoType.kind : GoType → Kind
  | .bool => .Bool
  | .int .int => .Int
  | .int .int8 => .Int8
  | .int .int16 => .Int16
  | .int .int32 => .Int32
  | .int .int64 => .Int64
  | .int .uint => .Uint
  | .int .uint8 => .Uint8
  | .int .uint16 => .Uint16
  | .int .uint32 => .Uint32
  | .int .uint64 => .Uint64
  | .int .uintptr => .Uintptr
  | .float .float32 => .Float32
  | .float .float64 => .Float64
  | .string => .String
  | .unsafePointer => .UnsafePointer
  | .pointer _ => .Ptr
  | .slice _ => .Slice
  | .map _ _ => .Map
  | .chan _ => .Chan
  | .func _ => .Func

/-- Runtime type of a scalar. -/
def Scalar.type : Scalar → GoType
  | .bool _ => .bool
  | .int k _ => .int k
  | .float k _ => .float k
  | .str _ => .string

/-- Runtime (dynamic) type of an interface value, `none` for untyped nil. -/
def typeOf : GoValue → Option GoType
  | .nil => none
  | .scalar s => some s.type
  | .unsafePointer _ => some .unsafePointer
  | .chan e _ => some (.chan e)
  | .func sig _ => some (.func sig)
  | .nilPointer e => some (.pointer e)
  | .pointer e _ _ => some (.pointer e)
  | .nilSlice e => some (.slice e)
  | .slice e _ _ => some (.slice e)
  | .nilMap k e => some (.map k e)
  | .map k e _ _ => some (.map k e)

/-- The interface holds nothing (`x == nil` in Go). -/
def GoValue.isUntypedNil : GoValue → Bool
  | .nil => true
  | _ => false

/-- The value is a nil: untyped nil, or the nil of a pointer, slice, map,
channel, function or unsafe-pointer type. -/
def GoValue.isNilValue : GoValue → Bool
  | .nil => true
  | .unsafePointer none => true
  | .chan _ none => true
  | .func _ none => true
  | .nilPointer _ => true
  | .nilSlice _ => true
  | .nilMap _ _ => true
  | _ => false

/-! ## `reflect.Value` -/

/-- A `reflect.Value` as `isNil` sees it: its kind (`Invalid` for the zero
Value) and whether the reference it holds is nil. -/
structure Value where
  kind : Kind
  null : Bool
  deriving DecidableEq, Repr

/-- The panic value of a `reflect` method called on a Value of the wrong kind
(`reflect.ValueError`). -/
structure ValueError where
  method : String
  kind : Kind
  deriving DecidableEq, Repr

/-- Method `reflect.Value.Kind`. -/
def Value.Kind (v : Value) : Kind := v.kind

/-- Method `reflect.Value.IsValid`: false for the zero Value only. -/
def Value.IsValid (v : Value) : Bool := v.kind != .Invalid

/-- Method `reflect.Value.IsNil`: defined on chan, func, interface, map, pointer, slice
and unsafe-pointer Values, and panics with a `ValueError` on every other kind. -/
def Value.IsNil (v : Value) : Except ValueError Bool :=
  match v.kind with
  | .Chan | .Func | .Map | .Ptr | .UnsafePointer => .ok v.null
  | .Interface | .Slice => .ok v.null
  | k => .error { method := "reflect.Value.IsNil", kind := k }

/-- Function `reflect.ValueOf`: the zero Value for untyped nil, otherwise a Value of the
dynamic type's kind. -/
def ValueOf (i : GoValue) : Value :=
  match typeOf i with
  | none => { kind := .Invalid, null := true }
  | some t => { kind := t.kind, null := i.isNilValue }

/-! ## `fmt` and `regexp` -/

/-- The parts of Go's library that are not spelled out here, taken as given:
`%v` of a value other than a string, a boolean, an integer or untyped nil, `%q`
of a string that holds a non-ASCII character, and `regexp.MatchString` on the
patterns that `MatchString` below does not decide itself. -/
structure Lib where
  formatValue : GoValue → String
  quoteString : String → String
  matchString : String → String → Except String Bool

/-- Name of a runtime type, as `%T` prints it. -/
def GoType.name : GoType → String
  | .bool => "bool"
  | .int .int => "int"
  | .int .int8 => "int8"
  | .int .int16 => "int16"
  | .int .int32 => "int32"
  | .int .int64 => "int64"
  | .int .uint => "uint"
  | .int .uint8 => "uint8"
  | .int .uint16 => "uint16"
  | .int .uint32 => "uint32"
  | .int .uint64 => "uint64"
  | .int .uintptr => "uintptr"
  | .float .float32 => "float32"
  | .float .float64 => "float64"
  | .string => "string"
  | .unsafePointer => "unsafe.Pointer"
  | .pointer e => "*" ++ e.name
  | .slice e => "[]" ++ e.name
  | .map k e => "map[" ++ k.name ++ "]" ++ e.name
  | .chan e => "chan " ++ e.name
  | .func sig => sig

/-- The verb `%T`: the runtime type's name, `<nil>` for untyped nil. -/
def formatT (v : GoValue) : String :=
  match typeOf v with
  | none => "<nil>"
  | some t => t.name

/-- The verb `%v`, which is also what `fmt.Sprint` prints for one operand:
a string is printed as it is, untyped nil as `<nil>`, a boolean as `true` or
`false`, an integer in decimal; the rest is the library's. -/
def formatV (L : Lib) : GoValue → String
  | .nil => "<nil>"
  | .scalar (.str s) => s
  | .scalar (.bool b) => if b then "true" else "false"
  | .scalar (.int _ n) => toString n
  | v => L.formatValue v

/-- Function `fmt.Sprint` of one operand. -/
def Sprint (L : Lib) (v : GoValue) : String := formatV L v

/-! ## The reporter -/

/-- The reporter `T` (the minimum interface of `*testing.T`), as the record of
the calls made on it: how often `Helper` was called and the messages passed to
`Error`, in order. -/
structure T where
  helpers : Nat
  errors : List String
  deriving DecidableEq, Repr

/-- Method `t.Helper()`. -/
def T.Helper (t : T) : T := { t with helpers := t.helpers + 1 }

/-- Method `t.Error(msg)`. -/
def T.Error (t : T) (msg : String) : T := { t with errors := t.errors ++ [msg] }

/-- One string occurs inside another. -/
def Contains (s sub : String) : Prop := sub.data <:+: s.data

instance (s sub : String) : Decidable (Contains s sub) := by
  unfold Contains; infer_instance

/-! ## `isNil` and `Nil` -/

/-- Function `isNil` reports v is nil, but will not panic. -/
def isNil (v : Value) : Except ValueError Bool :=
  match v.Kind with
  | .Chan | .Func | .Interface | .Map | .Ptr | .Slice | .UnsafePointer => v.IsNil
  | _ => .ok (!v.IsValid)

/-- Check `Nil`: assertion failed when got is not nil. -/
def Nil (L : Lib) (t : T) (got : GoValue) : Except ValueError T := do
  let t := t.Helper
  if !(← isNil (ValueOf got)) then
    return t.Error ("got (" ++ formatT got ++ ") " ++ formatV L got ++ " but expect nil")
  return t

/-! ## `reflect.DeepEqual` and `Equal` -/

/-- Go's `==` on two scalars: same type and same value, where floats compare as
numbers, so that a NaN is equal to nothing, itself included. -/
def Scalar.goEq : Scalar → Scalar → Bool
  | .float k x, .float j y => k == j && x != .nan && x == y
  | a, b => a == b

/-- Method `reflect.Value.MapIndex`: the value stored under the key that is `==` to
`key`, `none` (the zero Value) when there is no such key. -/
def MapIndex : List (Scalar × GoValue) → Scalar → Option GoValue
  | [], _ => none
  | (k, v) :: rest, key => if k.goEq key then some v else MapIndex rest key

mutual
/-- Function `deepValueEqual` of `reflect`.  Two invalid Values are equal and an invalid
one is equal to no valid one; Values of different types are unequal; then by
kind: scalars by `==`; channels and unsafe pointers by `==`; functions only when
both are nil; pointers when they are the same pointer or point to deeply equal
values; slices and maps when both are nil or both are not, with equal lengths,
and they share their storage or their elements are deeply equal.  (The table of
visited pointers only cuts cycles, which the values here do not have.) -/
def deepValueEqual : GoValue → GoValue → Bool
  | .nil, .nil => true
  | .scalar a, .scalar b => a.type == b.type && a.goEq b
  | .unsafePointer r1, .unsafePointer r2 => r1 == r2
  | .chan e1 r1, .chan e2 r2 => e1 == e2 && r1 == r2
  | .func s1 r1, .func s2 r2 => s1 == s2 && (r1.isNone && r2.isNone)
  | .nilPointer e1, .nilPointer e2 => e1 == e2
  | .pointer e1 a1 t1, .pointer e2 a2 t2 =>
      e1 == e2 && (a1 == a2 || deepValueEqual t1 t2)
  | .nilSlice e1, .nilSlice e2 => e1 == e2
  | .slice e1 a1 xs, .slice e2 a2 ys =>
      e1 == e2 && (xs.length == ys.length && (a1 == a2 || deepValueEqualElems xs ys))
  | .nilMap k1 e1, .nilMap k2 e2 => k1 == k2 && e1 == e2
  | .map k1 e1 a1 m1, .map k2 e2 a2 m2 =>
      k1 == k2 && e1 == e2 &&
        (m1.length == m2.length && (a1 == a2 || deepValueEqualEntries m1 m2))
  | _, _ => false
/-- The loop of `deepValueEqual` over the elements of two slices. -/
def deepValueEqualElems : List GoValue → List GoValue → Bool
  | [], [] => true
  | x :: xs, y :: ys => deepValueEqual x y && deepValueEqualElems xs ys
  | _, _ => false
/-- The loop of `deepValueEqual` over the entries of the first map: each key
must be in the second map, with a deeply equal value. -/
def deepValueEqualEntries : List (Scalar × GoValue) → List (Scalar × GoValue) → Bool
  | [], _ => true
  | (k, v) :: rest, m2 =>
      (match MapIndex m2 k with
        | none => false
        | some w => deepValueEqual v w) && deepValueEqualEntries rest m2
end

/-- Function `reflect.DeepEqual`: when one of the two is untyped nil, both must be;
values of different runtime types are never deeply equal. -/
def DeepEqual (x y : GoValue) : Bool :=
  if x.isUntypedNil || y.isUntypedNil then x.isUntypedNil == y.isUntypedNil
  else if typeOf x != typeOf y then false
  else deepValueEqual x y

/-- Check `Equal`: assertion failed when got and expect are not deeply equal. -/
def Equal (L : Lib) (t : T) (got expect : GoValue) : T :=
  let t := t.Helper
  if !DeepEqual got expect then
    t.Error ("got (" ++ formatT got ++ ") " ++ formatV L got ++
      " but expect (" ++ formatT expect ++ ") " ++ formatV L expect)
  else t

mutual
/-- Structural equality as the specification words it: the same runtime type
and, recursively, the same structure (both nil; equal scalars; sequences of one
length with structurally equal elements; mappings with the same keys and
structurally equal values; pointers to structurally equal values), not
identity.  A channel, function or unsafe pointer has no structure but its
address, and a pointer, slice or map is structurally equal to itself. -/
def structurallyEqual : GoValue → GoValue → Bool
  | .nil, .nil => true
  | .scalar a, .scalar b => a == b
  | .unsafePointer r1, .unsafePointer r2 => r1 == r2
  | .chan e1 r1, .chan e2 r2 => e1 == e2 && r1 == r2
  | .func s1 r1, .func s2 r2 => s1 == s2 && r1 == r2
  | .nilPointer e1, .nilPointer e2 => e1 == e2
  | .pointer e1 a1 t1, .pointer e2 a2 t2 =>
      e1 == e2 && (a1 == a2 || structurallyEqual t1 t2)
  | .nilSlice e1, .nilSlice e2 => e1 == e2
  | .slice e1 a1 xs, .slice e2 a2 ys =>
      e1 == e2 && (xs.length == ys.length && (a1 == a2 || structurallyEqualElems xs ys))
  | .nilMap k1 e1, .nilMap k2 e2 => k1 == k2 && e1 == e2
  | .map k1 e1 a1 m1, .map k2 e2 a2 m2 =>
      k1 == k2 && e1 == e2 &&
        (m1.length == m2.length && (a1 == a2 || structurallyEqualEntries m1 m2))
  | _, _ => false
/-- Structural equality of two sequences, element by element. -/
def structurallyEqualElems : List GoValue → List GoValue → Bool
  | [], [] => true
  | x :: xs, y :: ys => structurallyEqual x y && structurallyEqualElems xs ys
  | _, _ => false
/-- Every key of the first mapping is a key of the second, with a structurally
equal value. -/
def structurallyEqualEntries : List (Scalar × GoValue) → List (Scalar × GoValue) → Bool
  | [], _ => true
  | (k, v) :: rest, m2 =>
      (match m2.lookup k with
        | none => false
        | some w => structurallyEqual v w) && structurallyEqualEntries rest m2
end

/-- The scalar is a floating-point NaN. -/
def Scalar.isNaN : Scalar → Bool
  | .float _ .nan => true
  | _ => false

mutual
/-- The value holds no NaN and no non-nil function, at any depth. -/
def GoValue.plain : GoValue → Bool
  | .scalar s => !s.isNaN
  | .func _ (some _) => false
  | .pointer _ _ t => t.plain
  | .slice _ _ xs => plainElems xs
  | .map _ _ _ m => plainEntries m
  | _ => true
/-- No element holds a NaN or a non-nil function. -/
def plainElems : List GoValue → Bool
  | [] => true
  | x :: xs => x.plain && plainElems xs
/-- No key is a NaN and no value holds a NaN or a non-nil function. -/
def plainEntries : List (Scalar × GoValue) → Bool
  | [] => true
  | (k, v) :: rest => !k.isNaN && v.plain && plainEntries rest
end

/-! ## `%q` and `regexp.MatchString` -/

/-- The double quote. -/
def dquote : Char := Char.ofNat 34

/-- The backslash. -/
def backslash : Char := Char.ofNat 92

/-- How `strconv.Quote` writes one ASCII character: the quote and the backslash
behind a backslash, the control characters by their escape, the printable ones
as they are. -/
def quoteRune (c : Char) : String :=
  if c = dquote ∨ c = backslash then String.mk [backslash, c]
  else if c.toNat = 7 then String.mk [backslash, Char.ofNat 97]
  else if c.toNat = 8 then String.mk [backslash, Char.ofNat 98]
  else if c.toNat = 12 then String.mk [backslash, Char.ofNat 102]
  else if c.toNat = 10 then String.mk [backslash, Char.ofNat 110]
  else if c.toNat = 13 then String.mk [backslash, Char.ofNat 114]
  else if c.toNat = 9 then String.mk [backslash, Char.ofNat 116]
  else if c.toNat = 11 then String.mk [backslash, Char.ofNat 118]
  else if c.toNat < 32 ∨ c.toNat = 127 then
    String.mk [backslash, Char.ofNat 120, Nat.digitChar (c.toNat / 16), Nat.digitChar (c.toNat % 16)]
  else String.singleton c

/-- The verb `%q` on a string (`strconv.Quote`): the string between double
quotes, each character written by `quoteRune`; a string that holds a non-ASCII
character is the library's. -/
def Quote (L : Lib) (s : String) : String :=
  if s.data.all (fun c => c.toNat < 128) then
    String.singleton dquote ++ String.join (s.data.map quoteRune) ++ String.singleton dquote
  else L.quoteString s

/-- The metacharacters of Go's regular expressions (those `regexp.QuoteMeta`
escapes). -/
def metaChars : List Char := [backslash] ++ ".+*?()|[]^$".data ++ [Char.ofNat 123, Char.ofNat 125]

/-- Walks the parentheses of a pattern, `depth` of them open: the error of an
unbalanced pattern, `none` for a balanced one. -/
def parenError : Nat → List Char → Option String
  | 0, [] => none
  | _ + 1, [] => some "missing closing )"
  | depth, c :: cs =>
      if c = Char.ofNat 40 then parenError (depth + 1) cs
      else if c = Char.ofNat 41 then
        match depth with
        | 0 => some "unexpected )"
        | d + 1 => parenError d cs
      else parenError depth cs

/-- Function `regexp.MatchString(pattern, s)`.  A pattern of at most 1000
characters without metacharacters compiles and matches the strings it occurs
in.  A pattern whose only metacharacters are parentheses, and unbalanced ones,
does not compile.  Every other pattern is the library's. -/
def MatchString (L : Lib) (pattern s : String) : Except String Bool :=
  if pattern.length ≤ 1000 ∧ pattern.data.all (fun c => !metaChars.contains c) then
    .ok (decide (Contains s pattern))
  else if pattern.data.all
      (fun c => c = Char.ofNat 40 ∨ c = Char.ofNat 41 ∨ !metaChars.contains c) then
    match parenError 0 pattern.data with
    | some e => .error e
    | none => L.matchString pattern s
  else L.matchString pattern s

/-! ## `recovery`, `Panic` and `matches` -/

/-- What calling a `func()` does: it returns, or it panics with the value that
`recover` then yields. -/
inductive Callable where
  | returns
  | panics (v : GoValue)

/-- The frame of `recovery` when its deferred function runs: the named result
`str` and the panic in flight, if any. -/
structure Frame where
  str : String
  panicking : Option GoValue

/-- Builtin `recover()`, called by the deferred function: it yields the value of the
panic in flight and stops it, or untyped nil when nothing panics. -/
def recover (f : Frame) : GoValue × Frame :=
  match f.panicking with
  | some v => (v, { f with panicking := none })
  | none => (.nil, f)

/-- Function `recovery` calls `fn`, then returns `<<SUCCESS>>`; its deferred function
sets the result to `fmt.Sprint(r)` when `recover()` yields a non-nil `r`.  A
panic that is still in flight after the deferred function leaves `recovery`. -/
def recovery (L : Lib) (fn : Callable) : Except GoValue String :=
  let body : Frame :=
    match fn with
    | .returns => { str := "<<SUCCESS>>", panicking := none }
    | .panics v => { str := "", panicking := some v }
  let (r, f) := recover body
  let f : Frame := if !r.isUntypedNil then { f with str := Sprint L r } else f
  match f.panicking with
  | some v => .error v
  | none => .ok f.str

/-- The helper `matches` of the source: it reports `invalid pattern` when expr
does not compile and the mismatch when got does not match expr. -/
def matches_ (L : Lib) (t : T) (got expr : String) : T :=
  let t := t.Helper
  match MatchString L expr got with
  | .error _ => t.Error "invalid pattern"
  | .ok ok =>
      if !ok then
        t.Error ("got " ++ Quote L got ++ " which does not match " ++ Quote L expr)
      else t

/-- Check `Panic`: assertion failed when fn does not panic or not match expr
expression. -/
def Panic (L : Lib) (t : T) (fn : Callable) (expr : String) : Except GoValue T := do
  let t := t.Helper
  let str ← recovery L fn
  if str == "<<SUCCESS>>" then
    return t.Error "did not panic"
  else
    return matches_ L t str expr

/-! ## Lemmas -/

/-- Scalars that are `==` in Go are the same scalar. -/
theorem Scalar_eq_of_goEq (a b : Scalar) (h : a.goEq b = true) : a = b := by
  cases a <;> cases b <;> simp_all [Scalar.goEq]

/-- Against a scalar that is not a NaN, `==` is identity. -/
theorem Scalar_goEq_of_not_isNaN (a b : Scalar) (hb : b.isNaN = false) :
    a.goEq b = decide (a = b) := by
  rw [Bool.eq_iff_iff]
  simp only [decide_eq_true_eq]
  constructor
  · exact Scalar_eq_of_goEq a b
  · rintro rfl
    cases a with
    | float k x => cases x <;> simp_all [Scalar.goEq, Scalar.isNaN]
    | _ => simp [Scalar.goEq]

/-- Nothing is `==` to a NaN. -/
theorem Scalar_goEq_of_isNaN (a b : Scalar) (hb : b.isNaN = true) : a.goEq b = false := by
  cases b with
  | float j y =>
    cases y with
    | nan => cases a with
      | float k x => cases x <;> simp [Scalar.goEq]
      | _ => simp [Scalar.goEq]
    | _ => simp [Scalar.isNaN] at hb
  | _ => simp [Scalar.isNaN] at hb

/-- Under a key that is not a NaN, `MapIndex` finds what a lookup by identity finds. -/
theorem MapIndex_eq_lookup (m : List (Scalar × GoValue)) (k : Scalar) (hk : k.isNaN = false) :
    MapIndex m k = m.lookup k := by
  induction m with
  | nil => rfl
  | cons e rest ih =>
    obtain ⟨k', v⟩ := e
    simp only [MapIndex, List.lookup, Scalar_goEq_of_not_isNaN k' k hk, ih]
    by_cases h : k' = k
    · subst h; simp
    · have h' : (k == k') = false := by simpa using fun e : k = k' => h e.symm
      simp [h, h']

/-- A NaN key is never found. -/
theorem MapIndex_of_isNaN (m : List (Scalar × GoValue)) (k : Scalar) (hk : k.isNaN = true) :
    MapIndex m k = none := by
  induction m with
  | nil => rfl
  | cons e rest ih =>
    obtain ⟨k', v⟩ := e
    simp [MapIndex, Scalar_goEq_of_isNaN k' k hk, ih]

/-- What `MapIndex` finds, a lookup by identity finds too. -/
theorem lookup_of_MapIndex (m : List (Scalar × GoValue)) (k : Scalar) (v : GoValue)
    (h : MapIndex m k = some v) : m.lookup k = some v := by
  cases hk : k.isNaN
  · rw [← MapIndex_eq_lookup m k hk]; exact h
  · rw [MapIndex_of_isNaN m k hk] at h; cases h

/-- Values that `deepValueEqual` accepts are structurally equal. -/
theorem structurallyEqual_of_deepValueEqual (a : GoValue) :
    ∀ b, deepValueEqual a b = true → structurallyEqual a b = true := by
  refine GoValue.rec
    (motive_1 := fun a => ∀ b, deepValueEqual a b = true → structurallyEqual a b = true)
    (motive_2 := fun xs => ∀ ys, deepValueEqualElems xs ys = true →
      structurallyEqualElems xs ys = true)
    (motive_3 := fun m1 => ∀ m2, deepValueEqualEntries m1 m2 = true →
      structurallyEqualEntries m1 m2 = true)
    (motive_4 := fun e => ∀ w, deepValueEqual e.2 w = true → structurallyEqual e.2 w = true)
    ?_ ?_ ?_ ?_ ?_ ?_ ?_ ?_ ?_ ?_ ?_ ?_ ?_ ?_ ?_ ?_ a
  · intro b h; cases b <;> simp_all [deepValueEqual, structurallyEqual]
  · intro s b h; cases b <;> simp_all [deepValueEqual, structurallyEqual]
    exact Scalar_eq_of_goEq _ _ h.2
  · intro r b h; cases b <;> simp_all [deepValueEqual, structurallyEqual]
  · intro e r b h; cases b <;> simp_all [deepValueEqual, structurallyEqual]
  · intro s r b h; cases b <;> simp_all [deepValueEqual, structurallyEqual]
  · intro e b h; cases b <;> simp_all [deepValueEqual, structurallyEqual]
  · intro e ad t ih b h
    cases b <;> simp_all [deepValueEqual, structurallyEqual]
    rcases h.2 with h' | h'
    · exact Or.inl h'
    · exact Or.inr (ih _ h')
  · intro e b h; cases b <;> simp_all [deepValueEqual, structurallyEqual]
  · intro e ad xs ih b h
    cases b <;> simp_all [deepValueEqual, structurallyEqual]
    rcases h.2.2 with h' | h'
    · exact Or.inl h'
    · exact Or.inr (ih _ h')
  · intro k e b h; cases b <;> simp_all [deepValueEqual, structurallyEqual]
  · intro k e ad m ih b h
    cases b <;> simp_all [deepValueEqual, structurallyEqual]
    rcases h.2.2 with h' | h'
    · exact Or.inl h'
    · exact Or.inr (ih _ h')
  · intro ys h; cases ys <;> simp_all [deepValueEqualElems, structurallyEqualElems]
  · intro x xs ihx ihxs ys h
    cases ys <;> simp_all [deepValueEqualElems, structurallyEqualElems]
  · intro m2 _; simp [structurallyEqualEntries]
  · intro e rest ihe ihrest m2 h
    obtain ⟨k, v⟩ := e
    simp only [deepValueEqualEntries, Bool.and_eq_true] at h
    simp only [structurallyEqualEntries, Bool.and_eq_true]
    refine ⟨?_, ihrest _ h.2⟩
    cases hm : MapIndex m2 k with
    | none => simp [hm] at h
    | some w =>
      rw [lookup_of_MapIndex m2 k w hm]
      simp only [hm] at h
      exact ihe w h.1
  · intro k v ih w h; exact ih w h

/-- Structurally equal values, the first without NaN and non-nil function, are
accepted by `deepValueEqual`. -/
theorem deepValueEqual_of_structurallyEqual (a : GoValue) :
    ∀ b, structurallyEqual a b = true → a.plain = true → deepValueEqual a b = true := by
  refine GoValue.rec
    (motive_1 := fun a => ∀ b, structurallyEqual a b = true → a.plain = true →
      deepValueEqual a b = true)
    (motive_2 := fun xs => ∀ ys, structurallyEqualElems xs ys = true → plainElems xs = true →
      deepValueEqualElems xs ys = true)
    (motive_3 := fun m1 => ∀ m2, structurallyEqualEntries m1 m2 = true →
      plainEntries m1 = true → deepValueEqualEntries m1 m2 = true)
    (motive_4 := fun e => ∀ w, structurallyEqual e.2 w = true → e.2.plain = true →
      deepValueEqual e.2 w = true)
    ?_ ?_ ?_ ?_ ?_ ?_ ?_ ?_ ?_ ?_ ?_ ?_ ?_ ?_ ?_ ?_ a
  · intro b h _; cases b <;> simp_all [deepValueEqual, structurallyEqual]
  · intro s b h hp
    cases b <;> simp_all [deepValueEqual, structurallyEqual, GoValue.plain]
    rw [Scalar_goEq_of_not_isNaN _ _ hp]; simp
  · intro r b h _; cases b <;> simp_all [deepValueEqual, structurallyEqual]
  · intro e r b h _; cases b <;> simp_all [deepValueEqual, structurallyEqual]
  · intro s r b h hp
    cases b <;> cases r <;> simp_all [deepValueEqual, structurallyEqual, GoValue.plain]
  · intro e b h _; cases b <;> simp_all [deepValueEqual, structurallyEqual]
  · intro e ad t ih b h hp
    cases b <;> simp_all [deepValueEqual, structurallyEqual, GoValue.plain]
    rcases h.2 with h' | h'
    · exact Or.inl h'
    · exact Or.inr (ih _ h')
  · intro e b h _; cases b <;> simp_all [deepValueEqual, structurallyEqual]
  · intro e ad xs ih b h hp
    cases b <;> simp_all [deepValueEqual, structurallyEqual, GoValue.plain]
    rcases h.2.2 with h' | h'
    · exact Or.inl h'
    · exact Or.inr (ih _ h')
  · intro k e b h _; cases b <;> simp_all [deepValueEqual, structurallyEqual]
  · intro k e ad m ih b h hp
    cases b <;> simp_all [deepValueEqual, structurallyEqual, GoValue.plain]
    rcases h.2.2 with h' | h'
    · exact Or.inl h'
    · exact Or.inr (ih _ h')
  · intro ys h _; cases ys <;> simp_all [deepValueEqualElems, structurallyEqualElems]
  · intro x xs ihx ihxs ys h hp
    cases ys <;> simp_all [deepValueEqualElems, structurallyEqualElems, plainElems]
  · intro m2 _ _; simp [deepValueEqualEntries]
  · intro e rest ihe ihrest m2 h hp
    obtain ⟨k, v⟩ := e
    simp only [structurallyEqualEntries, Bool.and_eq_true] at h
    simp only [plainEntries, Bool.and_eq_true, Bool.not_eq_true'] at hp
    simp only [deepValueEqualEntries, Bool.and_eq_true]
    refine ⟨?_, ihrest _ h.2 hp.2⟩
    rw [MapIndex_eq_lookup m2 k hp.1.1]
    cases hm : m2.lookup k with
    | none => simp [hm] at h
    | some w =>
      simp only [hm] at h
      exact ihe w h.1 hp.1.2
  · intro k v ih w h hp; exact ih w h hp

/-- Structurally equal values have the same runtime type. -/
theorem typeOf_eq_of_structurallyEqual (a b : GoValue) (h : structurallyEqual a b = true) :
    typeOf a = typeOf b := by
  cases a <;> cases b <;> simp_all [structurallyEqual, typeOf]

/-- Structurally equal values are both untyped nil or both not. -/
theorem isUntypedNil_eq_of_structurallyEqual (a b : GoValue)
    (h : structurallyEqual a b = true) : a.isUntypedNil = b.isUntypedNil := by
  cases a <;> cases b <;> simp_all [structurallyEqual, GoValue.isUntypedNil]

/-- Structurally equal values, the first without NaN and non-nil function, are
deeply equal. -/
theorem DeepEqual_of_structurallyEqual (a b : GoValue) (h : structurallyEqual a b = true)
    (hp : a.plain = true) : DeepEqual a b = true := by
  unfold DeepEqual
  rw [← isUntypedNil_eq_of_structurallyEqual a b h, typeOf_eq_of_structurallyEqual a b h]
  cases hn : a.isUntypedNil
  · simp [deepValueEqual_of_structurallyEqual a b h hp]
  · simp

/-- Deeply equal values have the same runtime type and are structurally equal. -/
theorem structurallyEqual_of_DeepEqual (a b : GoValue) (h : DeepEqual a b = true) :
    typeOf a = typeOf b ∧ structurallyEqual a b = true := by
  unfold DeepEqual at h
  by_cases hn : (a.isUntypedNil || b.isUntypedNil) = true
  · rw [if_pos hn] at h
    cases a <;> cases b <;> simp_all [GoValue.isUntypedNil, structurallyEqual, typeOf]
  · rw [if_neg hn] at h
    by_cases ht : (typeOf a != typeOf b) = true
    · rw [if_pos ht] at h; cases h
    · rw [if_neg ht] at h
      exact ⟨by simpa using ht, structurallyEqual_of_deepValueEqual a b h⟩

/-- A string occurs in itself. -/
theorem Contains_refl (s : String) : Contains s s :=
  ⟨[], [], by simp⟩

/-- What occurs in a string occurs in it with more text after it. -/
theorem Contains_append_right (s t sub : String) (h : Contains s sub) :
    Contains (s ++ t) sub := by
  obtain ⟨a, b, hab⟩ := h
  exact ⟨a, b ++ t.data, by simp [String.data_append, ← hab]⟩

/-- What occurs in a string occurs in it with more text before it. -/
theorem Contains_append_left (s t sub : String) (h : Contains t sub) :
    Contains (s ++ t) sub := by
  obtain ⟨a, b, hab⟩ := h
  exact ⟨s.data ++ a, b, by simp [String.data_append, ← hab]⟩

/-- On the Value of an interface value, `isNil` returns whether the value is a nil. -/
theorem isNil_ValueOf (got : GoValue) : isNil (ValueOf got) = .ok got.isNilValue := by
  cases got with
  | scalar s =>
    cases s with
    | int k n => cases k <;> rfl
    | float k x => cases k <;> rfl
    | _ => rfl
  | unsafePointer r => cases r <;> rfl
  | chan e r => cases r <;> rfl
  | func s r => cases r <;> rfl
  | _ => rfl

/-- On deeply equal values `Equal` only calls `Helper`. -/
theorem Equal_of_DeepEqual (L : Lib) (t : T) (got expect : GoValue)
    (h : DeepEqual got expect = true) : Equal L t got expect = ⟨t.helpers + 1, t.errors⟩ := by
  simp [Equal, h, T.Helper]

/-- On values that are not deeply equal `Equal` calls `Error` once, with both
values and their types in the message. -/
theorem Equal_of_not_DeepEqual (L : Lib) (t : T) (got expect : GoValue)
    (h : DeepEqual got expect = false) :
    Equal L t got expect = ⟨t.helpers + 1, t.errors ++
      ["got (" ++ formatT got ++ ") " ++ formatV L got ++
        " but expect (" ++ formatT expect ++ ") " ++ formatV L expect]⟩ := by
  simp [Equal, h, T.Helper, T.Error]

/-- When fn returns, `recovery` returns the text `<<SUCCESS>>`. -/
theorem recovery_returns (L : Lib) : recovery L .returns = .ok "<<SUCCESS>>" := rfl

/-- When fn panics with a non-nil value, `recovery` returns that value as `fmt.Sprint`
prints it. -/
theorem recovery_panics (L : Lib) (v : GoValue) (hv : v.isUntypedNil = false) :
    recovery L (.panics v) = .ok (Sprint L v) := by
  simp [recovery, recover, hv]

/-- When `recover` yields nil for a panic, `recovery` returns the empty string. -/
theorem recovery_panics_nil (L : Lib) : recovery L (.panics .nil) = .ok "" := rfl

/-- Panic runs `recovery` and then branches on the text `<<SUCCESS>>`. -/
theorem Panic_of_recovery (L : Lib) (t : T) (fn : Callable) (expr str : String)
    (h : recovery L fn = .ok str) :
    Panic L t fn expr = .ok (if str = "<<SUCCESS>>" then t.Helper.Error "did not panic"
      else matches_ L t.Helper str expr) := by
  simp only [Panic, h, bind, Except.bind, pure, Except.pure]
  by_cases hs : str = "<<SUCCESS>>" <;> simp [hs]

/-- When fn returns, `Panic` reports `did not panic`. -/
theorem Panic_of_returns (L : Lib) (t : T) (expr : String) :
    Panic L t .returns expr = .ok ⟨t.helpers + 1, t.errors ++ ["did not panic"]⟩ := by
  rw [Panic_of_recovery L t .returns expr _ (recovery_returns L)]
  simp [T.Helper, T.Error]

/-- When fn panics with a value whose text is not `<<SUCCESS>>` and matches expr,
`Panic` records no failure. -/
theorem Panic_records_nothing_of_match (L : Lib) (t : T) (v : GoValue) (expr : String)
    (hv : v.isUntypedNil = false) (hs : Sprint L v ≠ "<<SUCCESS>>")
    (hm : MatchString L expr (Sprint L v) = .ok true) :
    Panic L t (.panics v) expr = .ok ⟨t.helpers + 2, t.errors⟩ := by
  rw [Panic_of_recovery L t _ expr _ (recovery_panics L v hv)]
  simp [hs, matches_, hm, T.Helper]

/-! ## C1 and C2: `Nil` -/

/-- C1: for every nil value got (untyped nil, or the nil of a pointer, slice, map,
channel, function or unsafe-pointer type), `Nil(t, got)` returns with `Helper`
called once and `Error` never called: the failures recorded on t are unchanged. -/
theorem Nil_records_nothing_of_nil (L : Lib) (t : T) (got : GoValue)
    (h : got.isNilValue = true) :
    Nil L t got = .ok ⟨t.helpers + 1, t.errors⟩ := by
  have hnil : isNil (ValueOf got) = .ok true := by rw [isNil_ValueOf, h]
  simp [Nil, hnil, T.Helper, bind, Except.bind, pure, Except.pure]

/-- C1 at `Nil(t, (*int)(nil))`: a fresh reporter ends with one `Helper` call and no
failure. -/
theorem Nil_records_nothing_of_nil_witness :
    (GoValue.nilPointer (.int .int)).isNilValue = true ∧
    ∀ L : Lib, Nil L ⟨0, []⟩ (.nilPointer (.int .int)) = .ok ⟨1, []⟩ :=
  ⟨rfl, fun L => Nil_records_nothing_of_nil L ⟨0, []⟩ _ rfl⟩

/-- C2: for every value got that is not a nil, `Nil(t, got)` records exactly one
failure on t, with the message `got (<%T of got>) <%v of got> but expect nil`, in
which the runtime type name and the stringified value occur. -/
theorem Nil_records_failure_of_non_nil (L : Lib) (t : T) (got : GoValue)
    (h : got.isNilValue = false) :
    ∃ msg, msg = "got (" ++ formatT got ++ ") " ++ formatV L got ++ " but expect nil" ∧
      Nil L t got = .ok ⟨t.helpers + 1, t.errors ++ [msg]⟩ ∧
      Contains msg (formatT got) ∧ Contains msg (formatV L got) := by
  refine ⟨_, rfl, ?_, ?_, ?_⟩
  · simp [Nil, isNil_ValueOf, h, T.Helper, T.Error, bind, Except.bind, pure, Except.pure]
  · exact Contains_append_right _ _ _ (Contains_append_right _ _ _
      (Contains_append_right _ _ _ (Contains_append_left _ _ _ (Contains_refl _))))
  · exact Contains_append_right _ _ _ (Contains_append_left _ _ _ (Contains_refl _))

/-- C2 at `Nil(t, 0)`: the one failure recorded is `got (int) 0 but expect nil`. -/
theorem Nil_records_failure_of_non_nil_witness :
    (GoValue.scalar (.int .int 0)).isNilValue = false ∧
    ∀ L : Lib, ∃ msg, msg = "got (int) 0 but expect nil" ∧
      Nil L ⟨0, []⟩ (.scalar (.int .int 0)) = .ok ⟨1, [msg]⟩ ∧
      Contains msg "int" ∧ Contains msg "0" :=
  ⟨rfl, fun L => Nil_records_failure_of_non_nil L ⟨0, []⟩ (.scalar (.int .int 0)) rfl⟩

/-! ## C3 and C4: `Equal` -/

/-- C3, counterexample: a float64 NaN compared with itself, and a non-nil function
compared with itself, are structurally identical values of one runtime type, and
`Equal` records a failure on each pair. -/
theorem Equal_fails_on_identical_nan_and_func :
    (structurallyEqual (.scalar (.float .float64 .nan)) (.scalar (.float .float64 .nan)) = true ∧
      typeOf (.scalar (.float .float64 .nan)) = some (.float .float64) ∧
      ∀ L : Lib, ∃ msg, Equal L ⟨0, []⟩ (.scalar (.float .float64 .nan))
        (.scalar (.float .float64 .nan)) = ⟨1, [msg]⟩) ∧
    (structurallyEqual (.func "func()" (some 1)) (.func "func()" (some 1)) = true ∧
      typeOf (.func "func()" (some 1)) = some (.func "func()") ∧
      ∀ L : Lib, ∃ msg, Equal L ⟨0, []⟩ (.func "func()" (some 1))
        (.func "func()" (some 1)) = ⟨1, [msg]⟩) :=
  ⟨⟨by decide, rfl, fun L => ⟨_, rfl⟩⟩, ⟨by decide, rfl, fun L => ⟨_, rfl⟩⟩⟩

/-- C3, amended: for every pair got, expect that are structurally identical (hence
of the same runtime type), where got holds no NaN and no non-nil function,
`Equal(t, got, expect)` records no failure on t. -/
theorem Equal_records_nothing_of_structurallyEqual (L : Lib) (t : T) (got expect : GoValue)
    (hs : structurallyEqual got expect = true) (hp : got.plain = true) :
    typeOf got = typeOf expect ∧ Equal L t got expect = ⟨t.helpers + 1, t.errors⟩ :=
  ⟨typeOf_eq_of_structurallyEqual got expect hs,
    Equal_of_DeepEqual L t got expect (DeepEqual_of_structurallyEqual got expect hs hp)⟩

/-- C3 at `Equal(t, []int{1,2}, []int{1,2})`, two slices with storage of their own,
and at two nil `*int` pointers: no failure is recorded. -/
theorem Equal_records_nothing_of_structurallyEqual_witness :
    (structurallyEqual (.slice (.int .int) 1 [.scalar (.int .int 1), .scalar (.int .int 2)])
        (.slice (.int .int) 2 [.scalar (.int .int 1), .scalar (.int .int 2)]) = true ∧
      (GoValue.slice (.int .int) 1 [.scalar (.int .int 1), .scalar (.int .int 2)]).plain = true ∧
      ∀ L : Lib, Equal L ⟨0, []⟩
        (.slice (.int .int) 1 [.scalar (.int .int 1), .scalar (.int .int 2)])
        (.slice (.int .int) 2 [.scalar (.int .int 1), .scalar (.int .int 2)]) = ⟨1, []⟩) ∧
    (structurallyEqual (.nilPointer (.int .int)) (.nilPointer (.int .int)) = true ∧
      (GoValue.nilPointer (.int .int)).plain = true ∧
      ∀ L : Lib, Equal L ⟨0, []⟩ (.nilPointer (.int .int)) (.nilPointer (.int .int)) = ⟨1, []⟩) :=
  ⟨⟨by decide, by decide, fun L =>
      (Equal_records_nothing_of_structurallyEqual L ⟨0, []⟩ _ _ (by decide) (by decide)).2⟩,
    ⟨by decide, by decide, fun L =>
      (Equal_records_nothing_of_structurallyEqual L ⟨0, []⟩ _ _ (by decide) (by decide)).2⟩⟩

/-- C4: for every pair got, expect that differ in runtime type or in structure,
`Equal(t, got, expect)` records exactly one failure on t, with the message
`got (<%T of got>) <%v of got> but expect (<%T of expect>) <%v of expect>`, in
which the runtime type and the stringified form of both values occur. -/
theorem Equal_records_failure_of_different (L : Lib) (t : T) (got expect : GoValue)
    (h : typeOf got ≠ typeOf expect ∨ structurallyEqual got expect = false) :
    ∃ msg, msg = "got (" ++ formatT got ++ ") " ++ formatV L got ++
        " but expect (" ++ formatT expect ++ ") " ++ formatV L expect ∧
      Equal L t got expect = ⟨t.helpers + 1, t.errors ++ [msg]⟩ ∧
      Contains msg (formatT got) ∧ Contains msg (formatV L got) ∧
      Contains msg (formatT expect) ∧ Contains msg (formatV L expect) := by
  have hd : DeepEqual got expect = false := by
    cases hde : DeepEqual got expect
    · rfl
    · have := structurallyEqual_of_DeepEqual got expect hde
      rcases h with h | h
      · exact absurd this.1 h
      · rw [this.2] at h; cases h
  refine ⟨_, rfl, Equal_of_not_DeepEqual L t got expect hd, ?_, ?_, ?_, ?_⟩
  · exact Contains_append_right _ _ _ (Contains_append_right _ _ _ (Contains_append_right _ _ _
      (Contains_append_right _ _ _ (Contains_append_right _ _ _ (Contains_append_right _ _ _
        (Contains_append_left _ _ _ (Contains_refl _)))))))
  · exact Contains_append_right _ _ _ (Contains_append_right _ _ _ (Contains_append_right _ _ _
      (Contains_append_right _ _ _ (Contains_append_left _ _ _ (Contains_refl _)))))
  · exact Contains_append_right _ _ _ (Contains_append_right _ _ _
      (Contains_append_left _ _ _ (Contains_refl _)))
  · exact Contains_append_left _ _ _ (Contains_refl _)

/-- C4 at `Equal(t, int32(1), int64(1))`: numbers of different widths are not
coerced, the one failure recorded is `got (int32) 1 but expect (int64) 1`. -/
theorem Equal_records_failure_of_different_witness :
    (typeOf (.scalar (.int .int32 1)) ≠ typeOf (.scalar (.int .int64 1)) ∨
      structurallyEqual (.scalar (.int .int32 1)) (.scalar (.int .int64 1)) = false) ∧
    ∀ L : Lib, ∃ msg, msg = "got (int32) 1 but expect (int64) 1" ∧
      Equal L ⟨0, []⟩ (.scalar (.int .int32 1)) (.scalar (.int .int64 1)) = ⟨1, [msg]⟩ ∧
      Contains msg "int32" ∧ Contains msg "1" ∧ Contains msg "int64" ∧ Contains msg "1" :=
  ⟨Or.inl (by decide), fun L =>
    Equal_records_failure_of_different L ⟨0, []⟩ (.scalar (.int .int32 1))
      (.scalar (.int .int64 1)) (Or.inl (by decide))⟩

/-! ## C5 to C9: `Panic` -/

/-- C5: for every pattern expr, when fn returns normally `Panic(t, fn, expr)`
records exactly one failure on t, with the message `did not panic`. -/
theorem Panic_did_not_panic (L : Lib) (t : T) (expr : String) :
    Panic L t .returns expr = .ok ⟨t.helpers + 1, t.errors ++ ["did not panic"]⟩ :=
  Panic_of_returns L t expr

/-- C6, the code at `Panic(t, func() { panic("<<SUCCESS>>") }, "<<SUCCESS>>")`: the
panic value prints as `<<SUCCESS>>`, the pattern matches that text, and `Panic`
records the failure `did not panic`. -/
theorem Panic_sentinel_reported_as_no_panic (L : Lib) (t : T) :
    Sprint L (.scalar (.str "<<SUCCESS>>")) = "<<SUCCESS>>" ∧
    MatchString L "<<SUCCESS>>" (Sprint L (.scalar (.str "<<SUCCESS>>"))) = .ok true ∧
    Panic L t (.panics (.scalar (.str "<<SUCCESS>>"))) "<<SUCCESS>>" =
      .ok ⟨t.helpers + 1, t.errors ++ ["did not panic"]⟩ := by
  refine ⟨rfl, rfl, ?_⟩
  rw [Panic_of_recovery L t _ _ _ (recovery_panics L (.scalar (.str "<<SUCCESS>>")) rfl)]
  simp [Sprint, formatV, T.Helper, T.Error]

/-- C7, counterexample: at `Panic(t, func() { panic("say \"hi\"") }, "bye")` the panic
text does not match the pattern, one failure is recorded, and the panic text
does not occur in its message, which holds the text quoted by `%q`. -/
theorem Panic_mismatch_message_quotes :
    (∀ L : Lib,
      Sprint L (.scalar (.str "say \"hi\"")) = "say \"hi\"" ∧
      MatchString L "bye" "say \"hi\"" = .ok false ∧
      Panic L ⟨0, []⟩ (.panics (.scalar (.str "say \"hi\""))) "bye" =
        .ok ⟨2, ["got \"say \\\"hi\\\"\" which does not match \"bye\""]⟩) ∧
    ¬ Contains "got \"say \\\"hi\\\"\" which does not match \"bye\"" "say \"hi\"" :=
  ⟨fun _ => ⟨rfl, rfl, rfl⟩, by decide⟩

/-- C7, amended: when fn panics with a non-nil value whose text msg is not
`<<SUCCESS>>` and does not match the compilable pattern expr, `Panic(t, fn, expr)`
records exactly one failure on t, with the message
`got <%q of msg> which does not match <%q of expr>`, in which msg and expr occur
as `%q` quotes them. -/
theorem Panic_records_mismatch (L : Lib) (t : T) (v : GoValue) (expr : String)
    (hv : v.isUntypedNil = false) (hs : Sprint L v ≠ "<<SUCCESS>>")
    (hm : MatchString L expr (Sprint L v) = .ok false) :
    ∃ msg, msg = "got " ++ Quote L (Sprint L v) ++ " which does not match " ++ Quote L expr ∧
      Panic L t (.panics v) expr = .ok ⟨t.helpers + 2, t.errors ++ [msg]⟩ ∧
      Contains msg (Quote L (Sprint L v)) ∧ Contains msg (Quote L expr) := by
  refine ⟨_, rfl, ?_, ?_, ?_⟩
  · rw [Panic_of_recovery L t _ expr _ (recovery_panics L v hv)]
    simp [hs, matches_, hm, T.Helper, T.Error]
  · exact Contains_append_right _ _ _ (Contains_append_right _ _ _
      (Contains_append_left _ _ _ (Contains_refl _)))
  · exact Contains_append_left _ _ _ (Contains_refl _)

/-- C7 at `Panic(t, func() { panic("boom") }, "bang")`: the one failure recorded is
`got "boom" which does not match "bang"`. -/
theorem Panic_records_mismatch_witness :
    (GoValue.scalar (.str "boom")).isUntypedNil = false ∧
    ∀ L : Lib, Sprint L (.scalar (.str "boom")) ≠ "<<SUCCESS>>" ∧
      MatchString L "bang" (Sprint L (.scalar (.str "boom"))) = .ok false ∧
      ∃ msg, msg = "got \"boom\" which does not match \"bang\"" ∧
        Panic L ⟨0, []⟩ (.panics (.scalar (.str "boom"))) "bang" = .ok ⟨2, [msg]⟩ ∧
        Contains msg "\"boom\"" ∧ Contains msg "\"bang\"" :=
  ⟨rfl, fun L => ⟨(by decide : "boom" ≠ "<<SUCCESS>>"), rfl,
    Panic_records_mismatch L ⟨0, []⟩ (.scalar (.str "boom")) "bang" rfl
      (by decide : "boom" ≠ "<<SUCCESS>>") rfl⟩⟩

/-- C8, counterexample: the pattern `(` does not compile, and at
`Panic(t, func() {}, "(")` the one failure recorded is `did not panic`, not
`invalid pattern`. -/
theorem Panic_invalid_pattern_without_panic :
    (∀ (L : Lib) (s : String), MatchString L "(" s = .error "missing closing )") ∧
    (∀ L : Lib, Panic L ⟨0, []⟩ .returns "(" = .ok ⟨1, ["did not panic"]⟩) ∧
    "did not panic" ≠ "invalid pattern" :=
  ⟨fun _ _ => rfl, fun _ => rfl, by decide⟩

/-- C8, amended: for every pattern expr that does not compile and every fn,
`Panic(t, fn, expr)` records exactly one failure on t; its message is
`did not panic` when fn returns normally, and `invalid pattern` when fn panics
with a non-nil value whose text is not `<<SUCCESS>>`. -/
theorem Panic_one_failure_of_invalid_pattern (L : Lib) (t : T) (fn : Callable) (expr : String)
    (h : ∀ s, ∃ e, MatchString L expr s = .error e) :
    (∃ t' msg, Panic L t fn expr = .ok t' ∧ t'.errors = t.errors ++ [msg]) ∧
    (fn = .returns →
      Panic L t fn expr = .ok ⟨t.helpers + 1, t.errors ++ ["did not panic"]⟩) ∧
    (∀ v, fn = .panics v → v.isUntypedNil = false → Sprint L v ≠ "<<SUCCESS>>" →
      Panic L t fn expr = .ok ⟨t.helpers + 2, t.errors ++ ["invalid pattern"]⟩) := by
  have key : ∀ str, str ≠ "<<SUCCESS>>" →
      matches_ L t.Helper str expr = ⟨t.helpers + 2, t.errors ++ ["invalid pattern"]⟩ := by
    intro str _
    obtain ⟨e, he⟩ := h str
    simp [matches_, he, T.Helper, T.Error]
  refine ⟨?_, ?_, ?_⟩
  · cases fn with
    | returns => exact ⟨_, _, Panic_of_returns L t expr, rfl⟩
    | panics v =>
      cases hv : v.isUntypedNil
      · rw [Panic_of_recovery L t _ expr _ (recovery_panics L v hv)]
        by_cases hs : Sprint L v = "<<SUCCESS>>"
        · exact ⟨_, "did not panic", by rw [if_pos hs], by simp [T.Helper, T.Error]⟩
        · exact ⟨_, "invalid pattern", by rw [if_neg hs], by rw [key _ hs]⟩
      · have hn : v = .nil := by cases v <;> simp_all [GoValue.isUntypedNil]
        subst hn
        rw [Panic_of_recovery L t _ expr _ (recovery_panics_nil L)]
        exact ⟨_, "invalid pattern", by rw [if_neg (by decide)], by rw [key _ (by decide)]⟩
  · rintro rfl; exact Panic_of_returns L t expr
  · rintro v rfl hv hs
    rw [Panic_of_recovery L t _ expr _ (recovery_panics L v hv), if_neg hs, key _ hs]

/-- C8 at `Panic(t, func() { panic("boom") }, "(")`: the one failure recorded is
`invalid pattern`. -/
theorem Panic_one_failure_of_invalid_pattern_witness :
    (∀ (L : Lib) (s : String), ∃ e, MatchString L "(" s = .error e) ∧
    ∀ L : Lib, Panic L ⟨0, []⟩ (.panics (.scalar (.str "boom"))) "(" =
      .ok ⟨2, ["invalid pattern"]⟩ :=
  ⟨fun _ _ => ⟨_, rfl⟩, fun L =>
    (Panic_one_failure_of_invalid_pattern L ⟨0, []⟩ (.panics (.scalar (.str "boom"))) "("
      (fun _ => ⟨_, rfl⟩)).2.2 _ rfl rfl (by decide : "boom" ≠ "<<SUCCESS>>")⟩

/-- C9: for every fn, panicking or not, and every pattern expr, `Panic(t, fn, expr)`
returns normally: `recovery` returns a string, the text of the panic value when
fn panics with a non-nil value, and no panic leaves `recovery` or `Panic`. -/
theorem Panic_returns_normally (L : Lib) (t : T) (fn : Callable) (expr : String) :
    (∃ t', Panic L t fn expr = .ok t') ∧
    (∃ str, recovery L fn = .ok str) ∧
    (∀ v, fn = .panics v → v.isUntypedNil = false → recovery L fn = .ok (Sprint L v)) := by
  have hr : ∃ str, recovery L fn = .ok str := by
    cases fn with
    | returns => exact ⟨_, recovery_returns L⟩
    | panics v =>
      cases hv : v.isUntypedNil
      · exact ⟨_, recovery_panics L v hv⟩
      · have hn : v = .nil := by cases v <;> simp_all [GoValue.isUntypedNil]
        subst hn; exact ⟨_, recovery_panics_nil L⟩
  refine ⟨?_, hr, ?_⟩
  · obtain ⟨str, hstr⟩ := hr
    exact ⟨_, Panic_of_recovery L t fn expr str hstr⟩
  · rintro v rfl hv; exact recovery_panics L v hv

/-! ## C10: `isNil` -/

/-- C10: for every `reflect.Value` v, the zero Value included, `isNil(v)` returns a
boolean.  On the kinds chan, func, interface, map, pointer, slice and
unsafe-pointer it is `v.IsNil()`, which is defined there.  On every other kind,
where `v.IsNil()` would panic, the result is `!v.IsValid()`: true exactly when v
is invalid. -/
theorem isNil_never_panics (v : Value) :
    (∃ b, isNil v = .ok b) ∧
    (v.kind ∈ [Kind.Chan, .Func, .Interface, .Map, .Ptr, .Slice, .UnsafePointer] →
      isNil v = v.IsNil ∧ v.IsNil = .ok v.null) ∧
    (v.kind ∉ [Kind.Chan, .Func, .Interface, .Map, .Ptr, .Slice, .UnsafePointer] →
      isNil v = .ok (!v.IsValid) ∧ (∃ e, v.IsNil = .error e) ∧
      (isNil v = .ok true ↔ v.IsValid = false)) := by
  obtain ⟨k, n⟩ := v
  cases k <;> simp [isNil, Value.Kind, Value.IsNil, Value.IsValid]

end Assert
